import Mathlib

/-!
Verification development for the `openclaw-inwx` provisioning workflow engine
(`src/provisioning.ts`) and its permission-guard layer.

The engine `provisionDomainWithHosting` orchestrates four stages (domain
availability check, registration, nameserver configuration, hosting
provisioning) over two externally supplied tool registries.  Tools are
modelled as named functions from a JSON parameter record to
`Except String Json`: a JavaScript exception or promise rejection is an
`Except.error` carrying the error message (source helper `errorMessage`
reduces any thrown value to its message string).  The asynchronous engine is
embedded as a function into `Except String` as well, so that "the engine
itself throws" would be an `Except.error` at top level; the engine also
threads an explicit trace of the tool invocations it actually performs
(each `await tool.run(...)` appends one `CallEvent`), which makes claims of
the form "operation X is never invoked" stateable.
-/

/-- JSON-compatible values as exchanged with the tools.  `undef` stands for
JavaScript `undefined` (an absent optional value passed through). -/
inductive Json where
  | null : Json
  | undef : Json
  | bool (b : Bool) : Json
  | num (n : Int) : Json
  | str (s : String) : Json
  | arr (elems : List Json) : Json
  | obj (fields : List (String × Json)) : Json
deriving Repr

/-- JavaScript truthiness (`Boolean(v)`) restricted to JSON values. -/
def Json.truthy : Json → Bool
  | .null => false
  | .undef => false
  | .bool b => b
  | .num n => n != 0
  | .str s => !s.data.isEmpty
  | .arr _ => true
  | .obj _ => true

/-- Whitespace in the sense of JavaScript's `String.prototype.trim`
(restricted to the control and ASCII range relevant here). -/
def isJsWhitespace (c : Char) : Bool :=
  c == ' ' || c == '\t' || c == '\n' || c == '\r' || c == '\x0b' || c == '\x0c'

/-- JavaScript `String.prototype.trim`: drop leading and trailing
whitespace. -/
def jsTrim (s : String) : String :=
  String.mk ((((s.data.dropWhile isJsWhitespace).reverse.dropWhile isJsWhitespace).reverse))

/-- Property access `v?.key`: `none` models JavaScript `undefined`, both for
absent keys and for non-object receivers. -/
def Json.getField : Json → String → Option Json
  | .obj fields, key => fields.lookup key
  | _, _ => none

/-- Minimal tool interface from `src/provisioning.ts` (`ExternalBoundTool`):
a name plus an invocation function.  A rejected promise is `Except.error`
with the error's message. -/
structure ExternalBoundTool where
  name : String
  run : Json → Except String Json

/-- One actually performed tool invocation: the looked-up tool name and the
parameter record passed to `run`. -/
structure CallEvent where
  tool : String
  callParams : Json

/-- Lookup by exact name, from `findTool` in `src/provisioning.ts`
(lines 68-74); absence throws, modelled as `Except.error` with the exact
message the source builds. -/
def findTool (tools : List ExternalBoundTool) (name : String) :
    Except String ExternalBoundTool :=
  match tools.find? (fun t => t.name == name) with
  | some t => Except.ok t
  | none =>
      Except.error ("Required tool \"" ++ name ++ "\" not found in provided toolset")

/-- Resolve a tool and invoke it, recording the invocation in the trace.
The event is appended exactly when `run` is actually called, i.e. when the
lookup succeeded — also when `run` itself then fails. -/
def invokeTool (tools : List ExternalBoundTool) (name : String) (p : Json)
    (trace : List CallEvent) : Except String Json × List CallEvent :=
  match findTool tools name with
  | Except.error msg => (Except.error msg, trace)
  | Except.ok t => (t.run p, trace ++ [⟨name, p⟩])

/-- Resolution-plus-invocation result alone, without the trace. -/
def callTool (tools : List ExternalBoundTool) (name : String) (p : Json) :
    Except String Json :=
  match findTool tools name with
  | Except.error msg => Except.error msg
  | Except.ok t => t.run p

/-- Status of one workflow step (`ProvisioningStep.status`). -/
inductive StepStatus where
  | ok : StepStatus
  | error : StepStatus
  | skipped : StepStatus
deriving Repr, DecidableEq

/-- One ledger entry, from `ProvisioningStep` in `src/provisioning.ts`. -/
structure ProvisioningStep where
  step : String
  status : StepStatus
  data : Option Json
  error : Option String
deriving Repr

/-- The `created` telemetry record of `ProvisioningResult`; all fields start
absent (`{}` in the source). -/
structure CreatedRecord where
  domainRegistered : Option Bool
  nameserversConfigured : Option Bool
  hostingProvisioned : Option Bool
  ispProvisionResult : Option Json
deriving Repr

def CreatedRecord.empty : CreatedRecord := ⟨none, none, none, none⟩

/-- Aggregate workflow result, from `ProvisioningResult` in
`src/provisioning.ts`. -/
structure ProvisioningResult where
  ok : Bool
  domain : String
  steps : List ProvisioningStep
  created : CreatedRecord
deriving Repr

/-- Workflow parameters, from `ProvisionDomainHostingParams`; optional
fields of the TypeScript interface are `Option`s. -/
structure ProvisionDomainHostingParams where
  domain : String
  nameservers : List String
  serverIp : String
  clientName : String
  clientEmail : String
  createMail : Option Bool
  createDb : Option Bool
  serverId : Option Int
  registrationPeriod : Option Int
  contacts : Option Json
  skipRegistration : Option Bool
deriving Repr

/-- Availability extraction of stage 1 (lines 123-124 of the source):
`Array.isArray(raw) ? raw[0] : raw`, then `Boolean(checkResult?.avail)`.
An empty array yields `undefined`, a non-object first element has no
`avail` property, and an absent property coerces to `false`. -/
def readAvailability (raw : Json) : Bool :=
  let checkResult : Option Json :=
    match raw with
    | Json.arr elems => elems.head?
    | j => some j
  match checkResult with
  | some r =>
      match r.getField "avail" with
      | some v => v.truthy
      | none => false
  | none => false

/-- Parameter record `{ domain }` passed to `inwx_domain_check`. -/
def checkParams (domain : String) : Json :=
  Json.obj [("domain", Json.str domain)]

/-- Parameter record passed to `inwx_domain_register` (lines 138-143):
`period` defaults to 1; an absent `contacts` is passed as `undefined`. -/
def registerParams (params : ProvisionDomainHostingParams) (domain : String) : Json :=
  Json.obj [("domain", Json.str domain),
    ("period", Json.num (params.registrationPeriod.getD 1)),
    ("ns", Json.arr (params.nameservers.map Json.str)),
    ("contacts", params.contacts.getD Json.undef)]

/-- Parameter record `{ domain, ns }` passed to `inwx_nameserver_set`. -/
def nsParams (params : ProvisionDomainHostingParams) (domain : String) : Json :=
  Json.obj [("domain", Json.str domain),
    ("ns", Json.arr (params.nameservers.map Json.str))]

/-- Parameter record passed to `isp_provision_site` (lines 173-181):
`createMail` and `createDb` default to true, `serverId` is included only
when explicitly supplied. -/
def ispParams (params : ProvisionDomainHostingParams) (domain : String) : Json :=
  Json.obj ([("domain", Json.str domain),
    ("clientName", Json.str params.clientName),
    ("clientEmail", Json.str params.clientEmail),
    ("serverIp", Json.str params.serverIp),
    ("createMail", Json.bool (params.createMail.getD true)),
    ("createDb", Json.bool (params.createDb.getD true))] ++
    (match params.serverId with
     | some sid => [("serverId", Json.num sid)]
     | none => []))

/-- Stage 4 of the workflow (lines 170-190): provision hosting via
`isp_provision_site`; on success return `ok=true` with the completed
ledger, on any failure append an `error` step and return `ok=false`. -/
def hostingStage (ispTools : List ExternalBoundTool)
    (params : ProvisionDomainHostingParams) (domain : String)
    (steps : List ProvisioningStep) (created : CreatedRecord)
    (trace : List CallEvent) :
    Except String (ProvisioningResult × List CallEvent) :=
  match invokeTool ispTools "isp_provision_site" (ispParams params domain) trace with
  | (Except.ok ispResult, trace2) =>
      Except.ok ({ ok := true,
                   domain := domain,
                   steps := steps ++ [⟨"isp_provision", StepStatus.ok, some ispResult, none⟩],
                   created := { created with hostingProvisioned := some true, ispProvisionResult := some ispResult } }, trace2)
  | (Except.error msg, trace2) =>
      Except.ok ({ ok := false,
                   domain := domain,
                   steps := steps ++ [⟨"isp_provision", StepStatus.error, none, some msg⟩],
                   created := created }, trace2)

/-- Stage 3 of the workflow (lines 155-168): set nameservers when the list
is non-empty, else record a `skipped` step; an invocation failure appends
an `error` step and aborts. -/
def nameserverStage (inwxTools ispTools : List ExternalBoundTool)
    (params : ProvisionDomainHostingParams) (domain : String)
    (steps : List ProvisioningStep) (created : CreatedRecord)
    (trace : List CallEvent) :
    Except String (ProvisioningResult × List CallEvent) :=
  if params.nameservers.length > 0 then
    match invokeTool inwxTools "inwx_nameserver_set" (nsParams params domain) trace with
    | (Except.ok nsResult, trace2) =>
        hostingStage ispTools params domain
          (steps ++ [⟨"nameserver_set", StepStatus.ok, some nsResult, none⟩])
          { created with nameserversConfigured := some true } trace2
    | (Except.error msg, trace2) =>
        Except.ok ({ ok := false,
                     domain := domain,
                     steps := steps ++ [⟨"nameserver_set", StepStatus.error, none, some msg⟩],
                     created := created }, trace2)
  else
    hostingStage ispTools params domain
      (steps ++ [⟨"nameserver_set", StepStatus.skipped,
        some (Json.obj [("reason", Json.str "no nameservers provided")]), none⟩])
      created trace

/-- Stage 2 of the workflow (lines 131-153): three mutually exclusive
branches — explicit skip, register (domain available), skip because the
domain is unavailable.  A registration failure aborts; both skips
continue. -/
def registerStage (inwxTools ispTools : List ExternalBoundTool)
    (params : ProvisionDomainHostingParams) (domain : String)
    (domainAvailable : Bool)
    (steps : List ProvisioningStep) (created : CreatedRecord)
    (trace : List CallEvent) :
    Except String (ProvisioningResult × List CallEvent) :=
  if params.skipRegistration.getD false then
    nameserverStage inwxTools ispTools params domain
      (steps ++ [⟨"domain_register", StepStatus.skipped,
        some (Json.obj [("reason", Json.str "skipRegistration=true")]), none⟩])
      { created with domainRegistered := some false } trace
  else if domainAvailable then
    match invokeTool inwxTools "inwx_domain_register" (registerParams params domain) trace with
    | (Except.ok regResult, trace2) =>
        nameserverStage inwxTools ispTools params domain
          (steps ++ [⟨"domain_register", StepStatus.ok, some regResult, none⟩])
          { created with domainRegistered := some true } trace2
    | (Except.error msg, trace2) =>
        Except.ok ({ ok := false,
                     domain := domain,
                     steps := steps ++ [⟨"domain_register", StepStatus.error, none, some msg⟩],
                     created := created }, trace2)
  else
    nameserverStage inwxTools ispTools params domain
      (steps ++ [⟨"domain_register", StepStatus.skipped,
        some (Json.obj [("reason", Json.str "domain not available")]), none⟩])
      { created with domainRegistered := some false } trace

/-- End-to-end workflow `provisionDomainWithHosting` (lines 100-191):
validate the trimmed domain, run the availability check, then stages 2-4.
The second component of the returned pair is the trace of performed tool
invocations. -/
def provisionDomainWithHosting (inwxTools ispTools : List ExternalBoundTool)
    (params : ProvisionDomainHostingParams) :
    Except String (ProvisioningResult × List CallEvent) :=
  let domain := jsTrim params.domain
  if domain.data.isEmpty then
    Except.ok ({ ok := false,
                 domain := "",
                 steps := [⟨"validate", StepStatus.error, none, some "domain is required"⟩],
                 created := CreatedRecord.empty }, [])
  else
    match invokeTool inwxTools "inwx_domain_check" (checkParams domain) [] with
    | (Except.ok raw, trace2) =>
        let domainAvailable := readAvailability raw
        registerStage inwxTools ispTools params domain domainAvailable
          [⟨"domain_check", StepStatus.ok,
            some (Json.obj [("domain", Json.str domain),
              ("available", Json.bool domainAvailable)]), none⟩]
          CreatedRecord.empty trace2
    | (Except.error msg, trace2) =>
        Except.ok ({ ok := false,
                     domain := domain,
                     steps := [⟨"domain_check", StepStatus.error, none, some msg⟩],
                     created := CreatedRecord.empty }, trace2)

/-- Raw availability-check response used by the concrete test registries:
the single-element array shape the unit tests use. -/
def demoCheckRaw : Json :=
  Json.arr [Json.obj [("domain", Json.str "example.com"), ("avail", Json.bool true)]]

/-- Concrete availability-check tool answering `avail=true`. -/
def demoCheckTool : ExternalBoundTool :=
  ⟨"inwx_domain_check", fun _ => Except.ok demoCheckRaw⟩

/-- Concrete registration tool that always succeeds. -/
def demoRegisterTool : ExternalBoundTool :=
  ⟨"inwx_domain_register", fun _ => Except.ok (Json.obj [("domain", Json.str "example.com")])⟩

/-- Concrete nameserver tool that always succeeds. -/
def demoNsTool : ExternalBoundTool :=
  ⟨"inwx_nameserver_set", fun _ => Except.ok (Json.obj [])⟩

/-- Concrete hosting tool that always succeeds. -/
def demoIspTool : ExternalBoundTool :=
  ⟨"isp_provision_site", fun _ => Except.ok (Json.obj [("ok", Json.bool true)])⟩

/-- Registrar-side registry with all three operations succeeding. -/
def demoInwxTools : List ExternalBoundTool :=
  [demoCheckTool, demoRegisterTool, demoNsTool]

/-- Hosting-side registry with the provisioning operation succeeding. -/
def demoIspTools : List ExternalBoundTool := [demoIspTool]

/-- Baseline parameter record mirroring the unit tests' `baseParams`. -/
def demoParams : ProvisionDomainHostingParams :=
  { domain := "example.com",
    nameservers := ["ns1.hosting.de", "ns2.hosting.de"],
    serverIp := "1.2.3.4",
    clientName := "Acme Corp",
    clientEmail := "admin@acme.com",
    createMail := none,
    createDb := none,
    serverId := none,
    registrationPeriod := none,
    contacts := none,
    skipRegistration := none }

/-- Baseline parameters with registration explicitly skipped. -/
def demoParamsSkip : ProvisionDomainHostingParams :=
  { demoParams with skipRegistration := some true }

/-- Projection of an engine outcome to the overall flag and the ledger's
(step name, status) sequence. -/
def ledgerShape (e : Except String (ProvisioningResult × List CallEvent)) :
    Option (Bool × List (String × StepStatus)) :=
  match e with
  | Except.ok (r, _) => some (r.ok, r.steps.map (fun s => (s.step, s.status)))
  | Except.error _ => none

/-- An invocation whose combined resolution-plus-run result succeeded has
resolved the tool, so exactly one trace event was appended. -/
theorem invokeTool_of_callTool_ok {tools : List ExternalBoundTool} {n : String}
    {p : Json} {d : Json} (h : callTool tools n p = Except.ok d)
    (trace : List CallEvent) :
    invokeTool tools n p trace = (Except.ok d, trace ++ [⟨n, p⟩]) := by
  unfold callTool at h
  unfold invokeTool
  cases hf : findTool tools n with
  | error msg => rw [hf] at h; simp at h
  | ok t => rw [hf] at h; simp at h; simp [h]

/-- The result component of `invokeTool` is `callTool`. -/
theorem invokeTool_fst (tools : List ExternalBoundTool) (n : String) (p : Json)
    (trace : List CallEvent) :
    (invokeTool tools n p trace).1 = callTool tools n p := by
  unfold invokeTool callTool
  cases findTool tools n <;> rfl

/-- The trace only ever grows: the new trace is the old one plus a suffix
of events, each naming the looked-up tool. -/
theorem invokeTool_snd (tools : List ExternalBoundTool) (n : String) (p : Json)
    (trace : List CallEvent) :
    ∃ suffix, (invokeTool tools n p trace).2 = trace ++ suffix ∧
      ∀ e ∈ suffix, e.tool = n := by
  unfold invokeTool
  cases findTool tools n with
  | error msg => exact ⟨[], by simp⟩
  | ok t => exact ⟨[⟨n, p⟩], by simp⟩

/-- A registry containing no tool of the given name resolves to the
"required tool not found" error. -/
theorem findTool_of_absent {tools : List ExternalBoundTool} {n : String}
    (h : ∀ t ∈ tools, t.name ≠ n) :
    findTool tools n =
      Except.error ("Required tool \"" ++ n ++ "\" not found in provided toolset") := by
  unfold findTool
  have : tools.find? (fun t => t.name == n) = none := by
    apply List.find?_eq_none.mpr
    intro t ht
    simpa using h t ht
  rw [this]

/-- Stage 4 always resolves to a result: both the success and the failure
of the hosting invocation are captured. -/
theorem hostingStage_total (ispTools : List ExternalBoundTool)
    (params : ProvisionDomainHostingParams) (domain : String)
    (steps : List ProvisioningStep) (created : CreatedRecord)
    (trace : List CallEvent) :
    ∃ r, hostingStage ispTools params domain steps created trace = Except.ok r := by
  unfold hostingStage
  split <;> exact ⟨_, rfl⟩

/-- Stage 3 always resolves to a result. -/
theorem nameserverStage_total (inwxTools ispTools : List ExternalBoundTool)
    (params : ProvisionDomainHostingParams) (domain : String)
    (steps : List ProvisioningStep) (created : CreatedRecord)
    (trace : List CallEvent) :
    ∃ r, nameserverStage inwxTools ispTools params domain steps created trace =
      Except.ok r := by
  unfold nameserverStage
  split
  · split
    · exact hostingStage_total _ _ _ _ _ _
    · exact ⟨_, rfl⟩
  · exact hostingStage_total _ _ _ _ _ _

/-- Stage 2 always resolves to a result. -/
theorem registerStage_total (inwxTools ispTools : List ExternalBoundTool)
    (params : ProvisionDomainHostingParams) (domain : String)
    (domainAvailable : Bool)
    (steps : List ProvisioningStep) (created : CreatedRecord)
    (trace : List CallEvent) :
    ∃ r, registerStage inwxTools ispTools params domain domainAvailable steps
      created trace = Except.ok r := by
  unfold registerStage
  split
  · exact nameserverStage_total _ _ _ _ _ _ _
  · split
    · split
      · exact nameserverStage_total _ _ _ _ _ _ _
      · exact ⟨_, rfl⟩
    · exact nameserverStage_total _ _ _ _ _ _ _

/-- Stage 4 on a successful hosting invocation: `ok=true`, the `isp_provision`
step is appended with the result, and the telemetry records the provisioning. -/
theorem hostingStage_of_ok {ispTools : List ExternalBoundTool}
    {params : ProvisionDomainHostingParams} {domain : String} {j : Json}
    (h : callTool ispTools "isp_provision_site" (ispParams params domain) = Except.ok j)
    (steps : List ProvisioningStep) (created : CreatedRecord) (trace : List CallEvent) :
    hostingStage ispTools params domain steps created trace =
      Except.ok ({ ok := true,
                   domain := domain,
                   steps := steps ++ [⟨"isp_provision", StepStatus.ok, some j, none⟩],
                   created := { created with hostingProvisioned := some true, ispProvisionResult := some j } },
        trace ++ [⟨"isp_provision_site", ispParams params domain⟩]) := by
  unfold hostingStage
  rw [invokeTool_of_callTool_ok h]

/-- Stage 4 on a failed hosting invocation: `ok=false` and the trailing
`isp_provision` step carries the error message. -/
theorem hostingStage_of_error {ispTools : List ExternalBoundTool}
    {params : ProvisionDomainHostingParams} {domain : String} {m : String}
    (h : callTool ispTools "isp_provision_site" (ispParams params domain) = Except.error m)
    (steps : List ProvisioningStep) (created : CreatedRecord) (trace : List CallEvent) :
    hostingStage ispTools params domain steps created trace =
      Except.ok ({ ok := false,
                   domain := domain,
                   steps := steps ++ [⟨"isp_provision", StepStatus.error, none, some m⟩],
                   created := created },
        (invokeTool ispTools "isp_provision_site" (ispParams params domain) trace).2) := by
  unfold hostingStage
  have hfst := invokeTool_fst ispTools "isp_provision_site" (ispParams params domain) trace
  rcases hx : invokeTool ispTools "isp_provision_site" (ispParams params domain) trace with ⟨e, tr2⟩
  rw [hx] at hfst
  rw [h] at hfst
  simp at hfst
  subst hfst
  rfl

/-- Stage 3 with an empty nameserver list: append the `skipped` step and
continue to stage 4 without touching the registries. -/
theorem nameserverStage_of_empty {params : ProvisionDomainHostingParams}
    (h : params.nameservers = []) (inwxTools ispTools : List ExternalBoundTool)
    (domain : String) (steps : List ProvisioningStep) (created : CreatedRecord)
    (trace : List CallEvent) :
    nameserverStage inwxTools ispTools params domain steps created trace =
      hostingStage ispTools params domain
        (steps ++ [⟨"nameserver_set", StepStatus.skipped,
          some (Json.obj [("reason", Json.str "no nameservers provided")]), none⟩])
        created trace := by
  unfold nameserverStage
  rw [h]
  simp

/-- Stage 3 with nameservers supplied and a successful invocation: append
the `ok` step and continue to stage 4. -/
theorem nameserverStage_of_ok {inwxTools : List ExternalBoundTool}
    {params : ProvisionDomainHostingParams} {domain : String} {j : Json}
    (hne : params.nameservers ≠ [])
    (h : callTool inwxTools "inwx_nameserver_set" (nsParams params domain) = Except.ok j)
    (ispTools : List ExternalBoundTool) (steps : List ProvisioningStep)
    (created : CreatedRecord) (trace : List CallEvent) :
    nameserverStage inwxTools ispTools params domain steps created trace =
      hostingStage ispTools params domain
        (steps ++ [⟨"nameserver_set", StepStatus.ok, some j, none⟩])
        { created with nameserversConfigured := some true }
        (trace ++ [⟨"inwx_nameserver_set", nsParams params domain⟩]) := by
  have hlen : params.nameservers.length > 0 := List.length_pos.mpr hne
  unfold nameserverStage
  rw [if_pos hlen, invokeTool_of_callTool_ok h]

/-- Stage 3 with nameservers supplied and a failed invocation: abort with
`ok=false` and a trailing `nameserver_set` error step. -/
theorem nameserverStage_of_error {inwxTools : List ExternalBoundTool}
    {params : ProvisionDomainHostingParams} {domain : String} {m : String}
    (hne : params.nameservers ≠ [])
    (h : callTool inwxTools "inwx_nameserver_set" (nsParams params domain) = Except.error m)
    (ispTools : List ExternalBoundTool) (steps : List ProvisioningStep)
    (created : CreatedRecord) (trace : List CallEvent) :
    nameserverStage inwxTools ispTools params domain steps created trace =
      Except.ok ({ ok := false,
                   domain := domain,
                   steps := steps ++ [⟨"nameserver_set", StepStatus.error, none, some m⟩],
                   created := created },
        (invokeTool inwxTools "inwx_nameserver_set" (nsParams params domain) trace).2) := by
  have hlen : params.nameservers.length > 0 := List.length_pos.mpr hne
  unfold nameserverStage
  rw [if_pos hlen]
  have hfst := invokeTool_fst inwxTools "inwx_nameserver_set" (nsParams params domain) trace
  rcases hx : invokeTool inwxTools "inwx_nameserver_set" (nsParams params domain) trace with ⟨e, tr2⟩
  rw [hx] at hfst
  rw [h] at hfst
  simp at hfst
  subst hfst
  rfl

/-- Stage 2 with an explicit skip request: append the `skipped` step with
the explicit reason, record no registration, continue to stage 3. -/
theorem registerStage_of_skip {params : ProvisionDomainHostingParams}
    (h : params.skipRegistration.getD false = true)
    (inwxTools ispTools : List ExternalBoundTool) (domain : String)
    (domainAvailable : Bool) (steps : List ProvisioningStep)
    (created : CreatedRecord) (trace : List CallEvent) :
    registerStage inwxTools ispTools params domain domainAvailable steps created trace =
      nameserverStage inwxTools ispTools params domain
        (steps ++ [⟨"domain_register", StepStatus.skipped,
          some (Json.obj [("reason", Json.str "skipRegistration=true")]), none⟩])
        { created with domainRegistered := some false } trace := by
  unfold registerStage
  simp [h]

/-- Stage 2 with no skip and an available domain, successful registration:
append the `ok` step, record the registration, continue to stage 3. -/
theorem registerStage_of_avail_ok {inwxTools : List ExternalBoundTool}
    {params : ProvisionDomainHostingParams} {domain : String} {j : Json}
    (hskip : params.skipRegistration.getD false = false)
    (h : callTool inwxTools "inwx_domain_register" (registerParams params domain) = Except.ok j)
    (ispTools : List ExternalBoundTool) (steps : List ProvisioningStep)
    (created : CreatedRecord) (trace : List CallEvent) :
    registerStage inwxTools ispTools params domain true steps created trace =
      nameserverStage inwxTools ispTools params domain
        (steps ++ [⟨"domain_register", StepStatus.ok, some j, none⟩])
        { created with domainRegistered := some true }
        (trace ++ [⟨"inwx_domain_register", registerParams params domain⟩]) := by
  unfold registerStage
  rw [hskip]
  simp only [Bool.false_eq_true, if_false, if_true]
  rw [invokeTool_of_callTool_ok h]

/-- Stage 2 with no skip and an available domain, failed registration:
abort with `ok=false` and a trailing `domain_register` error step. -/
theorem registerStage_of_avail_error {inwxTools : List ExternalBoundTool}
    {params : ProvisionDomainHostingParams} {domain : String} {m : String}
    (hskip : params.skipRegistration.getD false = false)
    (h : callTool inwxTools "inwx_domain_register" (registerParams params domain) = Except.error m)
    (ispTools : List ExternalBoundTool) (steps : List ProvisioningStep)
    (created : CreatedRecord) (trace : List CallEvent) :
    registerStage inwxTools ispTools params domain true steps created trace =
      Except.ok ({ ok := false,
                   domain := domain,
                   steps := steps ++ [⟨"domain_register", StepStatus.error, none, some m⟩],
                   created := created },
        (invokeTool inwxTools "inwx_domain_register" (registerParams params domain) trace).2) := by
  unfold registerStage
  rw [hskip]
  simp only [Bool.false_eq_true, if_false, if_true]
  have hfst := invokeTool_fst inwxTools "inwx_domain_register" (registerParams params domain) trace
  rcases hx : invokeTool inwxTools "inwx_domain_register" (registerParams params domain) trace with ⟨e, tr2⟩
  rw [hx] at hfst
  rw [h] at hfst
  simp at hfst
  subst hfst
  rfl

/-- Stage 2 with no skip and an unavailable domain: append the `skipped`
step with the unavailability reason and continue to stage 3 — not fatal. -/
theorem registerStage_of_unavail {params : ProvisionDomainHostingParams}
    (hskip : params.skipRegistration.getD false = false)
    (inwxTools ispTools : List ExternalBoundTool) (domain : String)
    (steps : List ProvisioningStep) (created : CreatedRecord) (trace : List CallEvent) :
    registerStage inwxTools ispTools params domain false steps created trace =
      nameserverStage inwxTools ispTools params domain
        (steps ++ [⟨"domain_register", StepStatus.skipped,
          some (Json.obj [("reason", Json.str "domain not available")]), none⟩])
        { created with domainRegistered := some false } trace := by
  unfold registerStage
  rw [hskip]
  simp

/-- Workflow entry with an empty trimmed domain: the single `validate`
error step, nothing invoked. -/
theorem provision_of_invalid {params : ProvisionDomainHostingParams}
    (h : (jsTrim params.domain).data.isEmpty = true)
    (inwxTools ispTools : List ExternalBoundTool) :
    provisionDomainWithHosting inwxTools ispTools params =
      Except.ok ({ ok := false,
                   domain := "",
                   steps := [⟨"validate", StepStatus.error, none, some "domain is required"⟩],
                   created := CreatedRecord.empty }, []) := by
  unfold provisionDomainWithHosting
  simp [h]

/-- Workflow entry with a valid domain and a successful availability check:
the `domain_check` step is recorded `ok` and stage 2 runs with the computed
availability. -/
theorem provision_of_check_ok {inwxTools : List ExternalBoundTool}
    {params : ProvisionDomainHostingParams} {raw : Json}
    (h1 : (jsTrim params.domain).data.isEmpty = false)
    (h : callTool inwxTools "inwx_domain_check" (checkParams (jsTrim params.domain)) = Except.ok raw)
    (ispTools : List ExternalBoundTool) :
    provisionDomainWithHosting inwxTools ispTools params =
      registerStage inwxTools ispTools params (jsTrim params.domain) (readAvailability raw)
        [⟨"domain_check", StepStatus.ok,
          some (Json.obj [("domain", Json.str (jsTrim params.domain)),
            ("available", Json.bool (readAvailability raw))]), none⟩]
        CreatedRecord.empty
        [⟨"inwx_domain_check", checkParams (jsTrim params.domain)⟩] := by
  unfold provisionDomainWithHosting
  simp only [h1, Bool.false_eq_true, if_false]
  rw [invokeTool_of_callTool_ok h]
  rfl

/-- Workflow entry with a valid domain and a failed availability check:
abort with the single `domain_check` error step. -/
theorem provision_of_check_error {inwxTools : List ExternalBoundTool}
    {params : ProvisionDomainHostingParams} {m : String}
    (h1 : (jsTrim params.domain).data.isEmpty = false)
    (h : callTool inwxTools "inwx_domain_check" (checkParams (jsTrim params.domain)) = Except.error m)
    (ispTools : List ExternalBoundTool) :
    provisionDomainWithHosting inwxTools ispTools params =
      Except.ok ({ ok := false,
                   domain := jsTrim params.domain,
                   steps := [⟨"domain_check", StepStatus.error, none, some m⟩],
                   created := CreatedRecord.empty },
        (invokeTool inwxTools "inwx_domain_check" (checkParams (jsTrim params.domain)) []).2) := by
  unfold provisionDomainWithHosting
  simp only [h1, Bool.false_eq_true, if_false]
  have hfst := invokeTool_fst inwxTools "inwx_domain_check" (checkParams (jsTrim params.domain)) []
  rcases hx : invokeTool inwxTools "inwx_domain_check" (checkParams (jsTrim params.domain)) [] with ⟨e, tr2⟩
  rw [hx] at hfst
  rw [h] at hfst
  simp at hfst
  subst hfst
  rfl

/-- A lookup failure invokes nothing: no trace event is appended. -/
theorem invokeTool_of_findTool_error {tools : List ExternalBoundTool} {n : String}
    {m : String} (h : findTool tools n = Except.error m) (p : Json)
    (trace : List CallEvent) :
    invokeTool tools n p trace = (Except.error m, trace) := by
  unfold invokeTool
  rw [h]

/-- A registry with no tool of the given name yields the lookup failure
also through `callTool`. -/
theorem callTool_of_absent {tools : List ExternalBoundTool} {n : String}
    (h : ∀ t ∈ tools, t.name ≠ n) :
    callTool tools n p =
      Except.error ("Required tool \"" ++ n ++ "\" not found in provided toolset") := by
  unfold callTool
  rw [findTool_of_absent h]

/-- Stage 4 only appends to the ledger and only invokes the hosting
provisioning operation. -/
theorem hostingStage_out {ispTools : List ExternalBoundTool}
    {params : ProvisionDomainHostingParams} {domain : String}
    {steps : List ProvisioningStep} {created : CreatedRecord}
    {trace : List CallEvent} {r : ProvisioningResult} {tr2 : List CallEvent}
    (h : hostingStage ispTools params domain steps created trace = Except.ok (r, tr2)) :
    (∃ rest, r.steps = steps ++ rest) ∧
      (∃ suffix, tr2 = trace ++ suffix ∧ ∀ e ∈ suffix, e.tool = "isp_provision_site") := by
  cases hc : callTool ispTools "isp_provision_site" (ispParams params domain) with
  | ok j =>
      rw [hostingStage_of_ok hc] at h
      simp only [Except.ok.injEq, Prod.mk.injEq] at h
      obtain ⟨hr, ht⟩ := h
      subst hr
      subst ht
      exact ⟨⟨_, rfl⟩, ⟨[⟨"isp_provision_site", ispParams params domain⟩], rfl, by simp⟩⟩
  | error m =>
      rw [hostingStage_of_error hc] at h
      simp only [Except.ok.injEq, Prod.mk.injEq] at h
      obtain ⟨hr, ht⟩ := h
      subst hr
      obtain ⟨suffix, hs, hall⟩ :=
        invokeTool_snd ispTools "isp_provision_site" (ispParams params domain) trace
      exact ⟨⟨_, rfl⟩, ⟨suffix, by rw [← ht, hs], hall⟩⟩

/-- Stages 3-4 only append to the ledger and only invoke the nameserver
and hosting operations. -/
theorem nameserverStage_out {inwxTools ispTools : List ExternalBoundTool}
    {params : ProvisionDomainHostingParams} {domain : String}
    {steps : List ProvisioningStep} {created : CreatedRecord}
    {trace : List CallEvent} {r : ProvisioningResult} {tr2 : List CallEvent}
    (h : nameserverStage inwxTools ispTools params domain steps created trace =
      Except.ok (r, tr2)) :
    (∃ rest, r.steps = steps ++ rest) ∧
      (∃ suffix, tr2 = trace ++ suffix ∧
        ∀ e ∈ suffix, e.tool = "inwx_nameserver_set" ∨ e.tool = "isp_provision_site") := by
  by_cases hne : params.nameservers = []
  · rw [nameserverStage_of_empty hne] at h
    obtain ⟨⟨rest, hrest⟩, ⟨suffix, hsuf, hall⟩⟩ := hostingStage_out h
    refine ⟨⟨_, by rw [hrest, List.append_assoc]⟩,
      ⟨suffix, hsuf, fun e he => Or.inr (hall e he)⟩⟩
  · cases hc : callTool inwxTools "inwx_nameserver_set" (nsParams params domain) with
    | ok j =>
        rw [nameserverStage_of_ok hne hc] at h
        obtain ⟨⟨rest, hrest⟩, ⟨suffix, hsuf, hall⟩⟩ := hostingStage_out h
        refine ⟨⟨_, by rw [hrest, List.append_assoc]⟩,
          ⟨⟨"inwx_nameserver_set", nsParams params domain⟩ :: suffix,
            by rw [hsuf, List.append_assoc]; rfl, ?_⟩⟩
        intro e he
        rcases List.mem_cons.mp he with he | he
        · exact Or.inl (by rw [he])
        · exact Or.inr (hall e he)
    | error m =>
        rw [nameserverStage_of_error hne hc] at h
        simp only [Except.ok.injEq, Prod.mk.injEq] at h
        obtain ⟨hr, ht⟩ := h
        subst hr
        obtain ⟨suffix, hs, hall⟩ :=
          invokeTool_snd inwxTools "inwx_nameserver_set" (nsParams params domain) trace
        exact ⟨⟨_, rfl⟩, ⟨suffix, by rw [← ht, hs], fun e he => Or.inl (hall e he)⟩⟩

/-- A ledger with no `error` entry. -/
def ledgerNoError (l : List ProvisioningStep) : Prop :=
  ∀ s ∈ l, s.status ≠ StepStatus.error

/-- Appending a non-error step preserves `ledgerNoError`. -/
theorem ledgerNoError_append_nonError {l : List ProvisioningStep}
    {s : ProvisioningStep} (hl : ledgerNoError l) (hs : s.status ≠ StepStatus.error) :
    ledgerNoError (l ++ [s]) := by
  intro x hx
  rcases List.mem_append.mp hx with hx | hx
  · exact hl x hx
  · rw [List.mem_singleton.mp hx]
    exact hs

/-- When only the last ledger entry may be an error, at most one entry is. -/
theorem filter_error_le_one {l : List ProvisioningStep}
    (h : ∀ s ∈ l.dropLast, s.status ≠ StepStatus.error) :
    (l.filter (fun s => s.status == StepStatus.error)).length ≤ 1 := by
  rcases List.eq_nil_or_concat l with rfl | ⟨ys, y, rfl⟩
  · simp
  · rw [List.concat_eq_append, List.dropLast_concat] at h
    rw [List.concat_eq_append, List.filter_append]
    have hnil : ys.filter (fun s => s.status == StepStatus.error) = [] :=
      List.filter_eq_nil_iff.mpr (fun s hs => by simpa using h s hs)
    rw [hnil, List.nil_append]
    exact List.length_filter_le _ _

/-- Stage 4 ledger invariant: given an error-free incoming ledger, errors
can appear only in last position and `ok` is equivalent to error-freeness. -/
theorem hostingStage_inv {ispTools : List ExternalBoundTool}
    {params : ProvisionDomainHostingParams} {domain : String}
    {steps : List ProvisioningStep} {created : CreatedRecord}
    {trace : List CallEvent} {r : ProvisioningResult} {tr2 : List CallEvent}
    (hsteps : ledgerNoError steps)
    (h : hostingStage ispTools params domain steps created trace = Except.ok (r, tr2)) :
    (∀ s ∈ r.steps.dropLast, s.status ≠ StepStatus.error) ∧
      (r.ok = true ↔ ledgerNoError r.steps) := by
  cases hc : callTool ispTools "isp_provision_site" (ispParams params domain) with
  | ok j =>
      rw [hostingStage_of_ok hc] at h
      simp only [Except.ok.injEq, Prod.mk.injEq] at h
      obtain ⟨hr, -⟩ := h
      subst hr
      constructor
      · intro s hs
        rw [List.dropLast_concat] at hs
        exact hsteps s hs
      · exact iff_of_true rfl (ledgerNoError_append_nonError hsteps (by simp))
  | error m =>
      rw [hostingStage_of_error hc] at h
      simp only [Except.ok.injEq, Prod.mk.injEq] at h
      obtain ⟨hr, -⟩ := h
      subst hr
      constructor
      · intro s hs
        rw [List.dropLast_concat] at hs
        exact hsteps s hs
      · refine iff_of_false (by simp) (fun hno => ?_)
        exact hno ⟨"isp_provision", StepStatus.error, none, some m⟩ (by simp) rfl

/-- Stages 3-4 ledger invariant. -/
theorem nameserverStage_inv {inwxTools ispTools : List ExternalBoundTool}
    {params : ProvisionDomainHostingParams} {domain : String}
    {steps : List ProvisioningStep} {created : CreatedRecord}
    {trace : List CallEvent} {r : ProvisioningResult} {tr2 : List CallEvent}
    (hsteps : ledgerNoError steps)
    (h : nameserverStage inwxTools ispTools params domain steps created trace =
      Except.ok (r, tr2)) :
    (∀ s ∈ r.steps.dropLast, s.status ≠ StepStatus.error) ∧
      (r.ok = true ↔ ledgerNoError r.steps) := by
  by_cases hne : params.nameservers = []
  · rw [nameserverStage_of_empty hne] at h
    exact hostingStage_inv (ledgerNoError_append_nonError hsteps (by simp)) h
  · cases hc : callTool inwxTools "inwx_nameserver_set" (nsParams params domain) with
    | ok j =>
        rw [nameserverStage_of_ok hne hc] at h
        exact hostingStage_inv (ledgerNoError_append_nonError hsteps (by simp)) h
    | error m =>
        rw [nameserverStage_of_error hne hc] at h
        simp only [Except.ok.injEq, Prod.mk.injEq] at h
        obtain ⟨hr, -⟩ := h
        subst hr
        constructor
        · intro s hs
          rw [List.dropLast_concat] at hs
          exact hsteps s hs
        · refine iff_of_false (by simp) (fun hno => ?_)
          exact hno ⟨"nameserver_set", StepStatus.error, none, some m⟩ (by simp) rfl

/-- Stages 2-4 ledger invariant. -/
theorem registerStage_inv {inwxTools ispTools : List ExternalBoundTool}
    {params : ProvisionDomainHostingParams} {domain : String}
    {domainAvailable : Bool}
    {steps : List ProvisioningStep} {created : CreatedRecord}
    {trace : List CallEvent} {r : ProvisioningResult} {tr2 : List CallEvent}
    (hsteps : ledgerNoError steps)
    (h : registerStage inwxTools ispTools params domain domainAvailable steps
      created trace = Except.ok (r, tr2)) :
    (∀ s ∈ r.steps.dropLast, s.status ≠ StepStatus.error) ∧
      (r.ok = true ↔ ledgerNoError r.steps) := by
  by_cases hskip : params.skipRegistration.getD false = true
  · rw [registerStage_of_skip hskip] at h
    exact nameserverStage_inv (ledgerNoError_append_nonError hsteps (by simp)) h
  · have hskip' : params.skipRegistration.getD false = false := by
      revert hskip
      cases params.skipRegistration.getD false <;> simp
    cases domainAvailable with
    | true =>
        cases hc : callTool inwxTools "inwx_domain_register" (registerParams params domain) with
        | ok j =>
            rw [registerStage_of_avail_ok hskip' hc] at h
            exact nameserverStage_inv (ledgerNoError_append_nonError hsteps (by simp)) h
        | error m =>
            rw [registerStage_of_avail_error hskip' hc] at h
            simp only [Except.ok.injEq, Prod.mk.injEq] at h
            obtain ⟨hr, -⟩ := h
            subst hr
            constructor
            · intro s hs
              rw [List.dropLast_concat] at hs
              exact hsteps s hs
            · refine iff_of_false (by simp) (fun hno => ?_)
              exact hno ⟨"domain_register", StepStatus.error, none, some m⟩ (by simp) rfl
    | false =>
        rw [registerStage_of_unavail hskip'] at h
        exact nameserverStage_inv (ledgerNoError_append_nonError hsteps (by simp)) h

/-- The workflow result carried by an engine outcome, discarding the trace. -/
def resultOf (e : Except String (ProvisioningResult × List CallEvent)) :
    Option ProvisioningResult :=
  match e with
  | Except.ok (r, _) => some r
  | Except.error _ => none

/-- The ledger shape is a function of `resultOf`. -/
theorem ledgerShape_eq_map (e : Except String (ProvisioningResult × List CallEvent)) :
    ledgerShape e = (resultOf e).map
      (fun r => (r.ok, r.steps.map (fun s => (s.step, s.status)))) := by
  unfold ledgerShape resultOf
  rcases e with m | ⟨r, tr⟩ <;> rfl

/-- Stage 4 determinism: hosting registries whose provisioning operation
responds identically produce the same workflow result. -/
theorem hostingStage_det {isp1 isp2 : List ExternalBoundTool}
    {params : ProvisionDomainHostingParams} {domain : String}
    (hisp : callTool isp1 "isp_provision_site" (ispParams params domain) =
      callTool isp2 "isp_provision_site" (ispParams params domain))
    (steps : List ProvisioningStep) (created : CreatedRecord)
    (t1 t2 : List CallEvent) :
    resultOf (hostingStage isp1 params domain steps created t1) =
      resultOf (hostingStage isp2 params domain steps created t2) := by
  cases hc : callTool isp1 "isp_provision_site" (ispParams params domain) with
  | ok j => rw [hostingStage_of_ok hc, hostingStage_of_ok (hisp ▸ hc)]; rfl
  | error m => rw [hostingStage_of_error hc, hostingStage_of_error (hisp ▸ hc)]; rfl

/-- Stages 3-4 determinism. -/
theorem nameserverStage_det {inwx1 inwx2 isp1 isp2 : List ExternalBoundTool}
    {params : ProvisionDomainHostingParams} {domain : String}
    (hns : callTool inwx1 "inwx_nameserver_set" (nsParams params domain) =
      callTool inwx2 "inwx_nameserver_set" (nsParams params domain))
    (hisp : callTool isp1 "isp_provision_site" (ispParams params domain) =
      callTool isp2 "isp_provision_site" (ispParams params domain))
    (steps : List ProvisioningStep) (created : CreatedRecord)
    (t1 t2 : List CallEvent) :
    resultOf (nameserverStage inwx1 isp1 params domain steps created t1) =
      resultOf (nameserverStage inwx2 isp2 params domain steps created t2) := by
  by_cases hne : params.nameservers = []
  · rw [nameserverStage_of_empty hne, nameserverStage_of_empty hne]
    exact hostingStage_det hisp _ _ _ _
  · cases hc : callTool inwx1 "inwx_nameserver_set" (nsParams params domain) with
    | ok j =>
        rw [nameserverStage_of_ok hne hc, nameserverStage_of_ok hne (hns ▸ hc)]
        exact hostingStage_det hisp _ _ _ _
    | error m =>
        rw [nameserverStage_of_error hne hc, nameserverStage_of_error hne (hns ▸ hc)]
        rfl

/-- Stages 2-4 determinism. -/
theorem registerStage_det {inwx1 inwx2 isp1 isp2 : List ExternalBoundTool}
    {params : ProvisionDomainHostingParams} {domain : String}
    {domainAvailable : Bool}
    (hreg : callTool inwx1 "inwx_domain_register" (registerParams params domain) =
      callTool inwx2 "inwx_domain_register" (registerParams params domain))
    (hns : callTool inwx1 "inwx_nameserver_set" (nsParams params domain) =
      callTool inwx2 "inwx_nameserver_set" (nsParams params domain))
    (hisp : callTool isp1 "isp_provision_site" (ispParams params domain) =
      callTool isp2 "isp_provision_site" (ispParams params domain))
    (steps : List ProvisioningStep) (created : CreatedRecord)
    (t1 t2 : List CallEvent) :
    resultOf (registerStage inwx1 isp1 params domain domainAvailable steps created t1) =
      resultOf (registerStage inwx2 isp2 params domain domainAvailable steps created t2) := by
  by_cases hskip : params.skipRegistration.getD false = true
  · rw [registerStage_of_skip hskip, registerStage_of_skip hskip]
    exact nameserverStage_det hns hisp _ _ _ _
  · have hskip' : params.skipRegistration.getD false = false := by
      revert hskip
      cases params.skipRegistration.getD false <;> simp
    cases domainAvailable with
    | true =>
        cases hc : callTool inwx1 "inwx_domain_register" (registerParams params domain) with
        | ok j =>
            rw [registerStage_of_avail_ok hskip' hc,
              registerStage_of_avail_ok hskip' (hreg ▸ hc)]
            exact nameserverStage_det hns hisp _ _ _ _
        | error m =>
            rw [registerStage_of_avail_error hskip' hc,
              registerStage_of_avail_error hskip' (hreg ▸ hc)]
            rfl
    | false =>
        rw [registerStage_of_unavail hskip', registerStage_of_unavail hskip']
        exact nameserverStage_det hns hisp _ _ _ _

/-- Helper for substring checks: does the pattern occur starting at the head? -/
def startsWithChars : List Char → List Char → Bool
  | _, [] => true
  | [], _ :: _ => false
  | c :: cs, d :: ds => c == d && startsWithChars cs ds

/-- Does the pattern occur anywhere in the haystack? -/
def occursInChars (hay pat : List Char) : Bool :=
  match hay with
  | [] => startsWithChars [] pat
  | _ :: t => startsWithChars hay pat || occursInChars t pat

/-- Substring containment over strings. -/
def containsSub (s sub : String) : Bool :=
  occursInChars s.data sub.data

/-- Read/write classification of an operation, supplied by the
domain-specific registry builder. -/
inductive OpClassification where
  | read : OpClassification
  | write : OpClassification
deriving Repr, DecidableEq

/-- Modelled from the spec: the permission-guard layer lives in
`src/guards.ts`, which is not present under `src/` (only its tests, the
status documents and the spec describe it).  Per the spec a Permission
Policy is a read-only flag plus an allow-list of operation names, empty
meaning unrestricted. -/
structure PermissionPolicy where
  readOnly : Bool
  allowedOperations : List String
deriving Repr

/-- Modelled from the spec: a policy-violation error message "identifying
the operation and the violated rule". -/
def guardViolationMessage (name rule : String) : String :=
  "Operation " ++ name ++ " rejected by policy rule " ++ rule

/-- Modelled from the spec: guard enforcement before an operation runs.
The checks follow the spec's order: first the read-only rule (rejecting
classified writes), then the allow-list rule (rejecting names absent from
a non-empty allow-list, regardless of classification), otherwise the call
is forwarded unchanged.  The second component records whether the
underlying operation was actually invoked, so a rejection provably causes
no remote side effect. -/
def guardedRun (policy : PermissionPolicy) (name : String)
    (cls : OpClassification) (op : Json → Except String Json) (p : Json) :
    Except String Json × Bool :=
  if policy.readOnly = true ∧ cls = OpClassification.write then
    (Except.error (guardViolationMessage name "readOnly"), false)
  else if policy.allowedOperations ≠ [] ∧ name ∉ policy.allowedOperations then
    (Except.error (guardViolationMessage name "allowedOperations"), false)
  else
    (op p, true)

/-- C1: for every pair of operation registries and every parameter record,
`provisionDomainWithHosting` never raises past its own boundary — it always
resolves to a workflow result, every failure (validation, operation
resolution, thrown or rejected operation) being encoded inside the
returned structure. -/
theorem c1_never_raises (inwxTools ispTools : List ExternalBoundTool)
    (params : ProvisionDomainHostingParams) :
    ∃ r, provisionDomainWithHosting inwxTools ispTools params = Except.ok r := by
  by_cases h1 : (jsTrim params.domain).data.isEmpty = true
  · exact ⟨_, provision_of_invalid h1 inwxTools ispTools⟩
  · have h1' : (jsTrim params.domain).data.isEmpty = false := by
      revert h1
      cases (jsTrim params.domain).data.isEmpty <;> simp
    cases hc : callTool inwxTools "inwx_domain_check" (checkParams (jsTrim params.domain)) with
    | ok raw =>
        rw [provision_of_check_ok h1' hc]
        exact registerStage_total _ _ _ _ _ _ _ _
    | error m => exact ⟨_, provision_of_check_error h1' hc ispTools⟩

/-- C2: a parameter record whose domain trims to the empty string yields
`ok=false` with exactly the single `validate` error step, an empty
`created` record and an empty invocation trace — no operation of either
registry is invoked. -/
theorem c2_empty_domain (inwxTools ispTools : List ExternalBoundTool)
    (params : ProvisionDomainHostingParams)
    (h : jsTrim params.domain = "") :
    provisionDomainWithHosting inwxTools ispTools params =
      Except.ok ({ ok := false,
                   domain := "",
                   steps := [⟨"validate", StepStatus.error, none, some "domain is required"⟩],
                   created := CreatedRecord.empty }, []) := by
  apply provision_of_invalid
  rw [h]
  rfl

/-- C2 witness: a whitespace-only domain triggers exactly the validation
failure with nothing invoked. -/
theorem c2_empty_domain_witness :
    provisionDomainWithHosting demoInwxTools demoIspTools
        { demoParams with domain := "   " } =
      Except.ok ({ ok := false,
                   domain := "",
                   steps := [⟨"validate", StepStatus.error, none, some "domain is required"⟩],
                   created := CreatedRecord.empty }, []) :=
  c2_empty_domain demoInwxTools demoIspTools { demoParams with domain := "   " } rfl

/-- C3 counterexample: with `skipRegistration=true`, a non-empty trimmed
domain, non-empty nameservers, an availability check reporting available
and every invoked operation succeeding, the ledger is NOT four `ok` steps:
the registration step is `skipped`.  The conjuncts record that the
claimed premises all hold at this input. -/
theorem c3_as_stated_counterexample :
    demoParamsSkip.nameservers ≠ [] ∧
    (jsTrim demoParamsSkip.domain).data.isEmpty = false ∧
    callTool demoInwxTools "inwx_domain_check"
        (checkParams (jsTrim demoParamsSkip.domain)) = Except.ok demoCheckRaw ∧
    readAvailability demoCheckRaw = true ∧
    callTool demoInwxTools "inwx_nameserver_set"
        (nsParams demoParamsSkip (jsTrim demoParamsSkip.domain)) = Except.ok (Json.obj []) ∧
    callTool demoIspTools "isp_provision_site"
        (ispParams demoParamsSkip (jsTrim demoParamsSkip.domain)) =
      Except.ok (Json.obj [("ok", Json.bool true)]) ∧
    ledgerShape (provisionDomainWithHosting demoInwxTools demoIspTools demoParamsSkip) =
      some (true, [("domain_check", StepStatus.ok), ("domain_register", StepStatus.skipped),
        ("nameserver_set", StepStatus.ok), ("isp_provision", StepStatus.ok)]) ∧
    StepStatus.skipped ≠ StepStatus.ok :=
  ⟨by decide, rfl, rfl, rfl, rfl, rfl, rfl, by decide⟩

/-- C3 (amended): with a non-empty trimmed domain, non-empty nameservers,
registration NOT explicitly skipped, the availability check reporting the
domain available, and every invoked operation succeeding, the result has
`ok=true` and exactly the four step outcomes
[domain_check, domain_register, nameserver_set, isp_provision], all `ok`. -/
theorem c3_success_path {inwxTools ispTools : List ExternalBoundTool}
    {params : ProvisionDomainHostingParams} {raw jreg jns jisp : Json}
    (h1 : (jsTrim params.domain).data.isEmpty = false)
    (h2 : params.nameservers ≠ [])
    (hskip : params.skipRegistration.getD false = false)
    (hcheck : callTool inwxTools "inwx_domain_check"
      (checkParams (jsTrim params.domain)) = Except.ok raw)
    (havail : readAvailability raw = true)
    (hreg : callTool inwxTools "inwx_domain_register"
      (registerParams params (jsTrim params.domain)) = Except.ok jreg)
    (hns : callTool inwxTools "inwx_nameserver_set"
      (nsParams params (jsTrim params.domain)) = Except.ok jns)
    (hisp : callTool ispTools "isp_provision_site"
      (ispParams params (jsTrim params.domain)) = Except.ok jisp) :
    ledgerShape (provisionDomainWithHosting inwxTools ispTools params) =
      some (true, [("domain_check", StepStatus.ok), ("domain_register", StepStatus.ok),
        ("nameserver_set", StepStatus.ok), ("isp_provision", StepStatus.ok)]) := by
  rw [provision_of_check_ok h1 hcheck, havail, registerStage_of_avail_ok hskip hreg,
    nameserverStage_of_ok h2 hns, hostingStage_of_ok hisp]
  rfl

/-- C3 witness: the all-successful demo registries on the baseline
parameters produce the four-step all-`ok` ledger. -/
theorem c3_success_path_witness :
    ledgerShape (provisionDomainWithHosting demoInwxTools demoIspTools demoParams) =
      some (true, [("domain_check", StepStatus.ok), ("domain_register", StepStatus.ok),
        ("nameserver_set", StepStatus.ok), ("isp_provision", StepStatus.ok)]) :=
  c3_success_path rfl (by decide) rfl rfl rfl rfl rfl rfl

/-- When the nameserver stage does not fail (list empty, or the operation
succeeds), stages 3 and 4 each append exactly one step: a `nameserver_set`
entry followed by an `isp_provision` entry (of whatever status). -/
theorem nameserverStage_reaches {inwxTools ispTools : List ExternalBoundTool}
    {params : ProvisionDomainHostingParams} {domain : String}
    {steps : List ProvisioningStep} {created : CreatedRecord}
    {trace : List CallEvent} {r : ProvisioningResult} {tr2 : List CallEvent}
    (hns : params.nameservers = [] ∨
      ∃ j, callTool inwxTools "inwx_nameserver_set" (nsParams params domain) = Except.ok j)
    (h : nameserverStage inwxTools ispTools params domain steps created trace =
      Except.ok (r, tr2)) :
    ∃ s3 s4, r.steps = steps ++ [s3, s4] ∧
      s3.step = "nameserver_set" ∧ s4.step = "isp_provision" := by
  have hgo : ∃ created2 trace2 s3, s3.step = "nameserver_set" ∧
      hostingStage ispTools params domain (steps ++ [s3]) created2 trace2 =
        Except.ok (r, tr2) := by
    by_cases hnil : params.nameservers = []
    · rw [nameserverStage_of_empty hnil] at h
      exact ⟨_, _, _, rfl, h⟩
    · rcases hns with hne | ⟨j, hok⟩
      · exact absurd hne hnil
      · rw [nameserverStage_of_ok hnil hok] at h
        exact ⟨_, _, _, rfl, h⟩
  obtain ⟨created2, trace2, s3, hs3, hh⟩ := hgo
  cases hc : callTool ispTools "isp_provision_site" (ispParams params domain) with
  | ok j2 =>
      rw [hostingStage_of_ok hc] at hh
      simp only [Except.ok.injEq, Prod.mk.injEq] at hh
      obtain ⟨hr, -⟩ := hh
      subst hr
      exact ⟨s3, ⟨"isp_provision", StepStatus.ok, some j2, none⟩,
        by rw [List.append_assoc]; rfl, hs3, rfl⟩
  | error m =>
      rw [hostingStage_of_error hc] at hh
      simp only [Except.ok.injEq, Prod.mk.injEq] at hh
      obtain ⟨hr, -⟩ := hh
      subst hr
      exact ⟨s3, ⟨"isp_provision", StepStatus.error, none, some m⟩,
        by rw [List.append_assoc]; rfl, hs3, rfl⟩

/-- C4: with a valid domain and a successful availability check, a
parameter record with `skipRegistration=true` always records the
registration step as `skipped` with the explicit-skip reason — whatever
availability was reported in stage 1 — and the register-domain operation
is never invoked. -/
theorem c4_explicit_skip {inwxTools : List ExternalBoundTool}
    {params : ProvisionDomainHostingParams} {raw : Json}
    (ispTools : List ExternalBoundTool)
    (h1 : (jsTrim params.domain).data.isEmpty = false)
    (hskip : params.skipRegistration = some true)
    (hcheck : callTool inwxTools "inwx_domain_check"
      (checkParams (jsTrim params.domain)) = Except.ok raw) :
    ∃ r tr, provisionDomainWithHosting inwxTools ispTools params = Except.ok (r, tr) ∧
      r.steps[1]? = some ⟨"domain_register", StepStatus.skipped,
        some (Json.obj [("reason", Json.str "skipRegistration=true")]), none⟩ ∧
      ∀ e ∈ tr, e.tool ≠ "inwx_domain_register" := by
  have hskip' : params.skipRegistration.getD false = true := by rw [hskip]; rfl
  rw [provision_of_check_ok h1 hcheck, registerStage_of_skip hskip']
  obtain ⟨⟨r, tr⟩, hr⟩ := nameserverStage_total inwxTools ispTools params
    (jsTrim params.domain) _ _ _
  rw [hr]
  obtain ⟨⟨rest, hrest⟩, ⟨suffix, hsuf, hall⟩⟩ := nameserverStage_out hr
  refine ⟨r, tr, rfl, ?_, ?_⟩
  · rw [hrest]
    simp
  · intro e he
    rw [hsuf] at he
    rcases List.mem_append.mp he with he | he
    · rw [List.mem_singleton.mp he]
      show ("inwx_domain_check" : String) ≠ "inwx_domain_register"
      decide
    · rcases hall e he with h | h <;> (rw [h]; decide)

/-- C4 witness: the explicit-skip demo run has the `skipped` registration
step and no registration invocation in its trace. -/
theorem c4_explicit_skip_witness :
    ∃ r tr, provisionDomainWithHosting demoInwxTools demoIspTools demoParamsSkip =
        Except.ok (r, tr) ∧
      r.steps[1]? = some ⟨"domain_register", StepStatus.skipped,
        some (Json.obj [("reason", Json.str "skipRegistration=true")]), none⟩ ∧
      ∀ e ∈ tr, e.tool ≠ "inwx_domain_register" :=
  c4_explicit_skip demoIspTools rfl rfl rfl

/-- C5: with a valid domain, no skip requested, and a successful
availability check reporting the domain unavailable, the registration step
is `skipped` with the unavailability reason, the register-domain operation
is never invoked, and — provided the nameserver stage itself does not fail
— the workflow continues through the nameserver stage and attempts hosting
provisioning rather than aborting. -/
theorem c5_unavailable_continues {inwxTools : List ExternalBoundTool}
    {params : ProvisionDomainHostingParams} {raw : Json}
    (ispTools : List ExternalBoundTool)
    (h1 : (jsTrim params.domain).data.isEmpty = false)
    (hskip : params.skipRegistration.getD false = false)
    (hcheck : callTool inwxTools "inwx_domain_check"
      (checkParams (jsTrim params.domain)) = Except.ok raw)
    (hunavail : readAvailability raw = false)
    (hns : params.nameservers = [] ∨
      ∃ j, callTool inwxTools "inwx_nameserver_set"
        (nsParams params (jsTrim params.domain)) = Except.ok j) :
    ∃ r tr, provisionDomainWithHosting inwxTools ispTools params = Except.ok (r, tr) ∧
      r.steps[1]? = some ⟨"domain_register", StepStatus.skipped,
        some (Json.obj [("reason", Json.str "domain not available")]), none⟩ ∧
      (∃ s3, r.steps[2]? = some s3 ∧ s3.step = "nameserver_set") ∧
      (∃ s4, r.steps[3]? = some s4 ∧ s4.step = "isp_provision") ∧
      ∀ e ∈ tr, e.tool ≠ "inwx_domain_register" := by
  rw [provision_of_check_ok h1 hcheck, hunavail, registerStage_of_unavail hskip]
  obtain ⟨⟨r, tr⟩, hr⟩ := nameserverStage_total inwxTools ispTools params
    (jsTrim params.domain) _ _ _
  rw [hr]
  obtain ⟨s3, s4, hsteps, hs3, hs4⟩ := nameserverStage_reaches hns hr
  obtain ⟨-, ⟨suffix, hsuf, hall⟩⟩ := nameserverStage_out hr
  refine ⟨r, tr, rfl, ?_, ⟨s3, ?_, hs3⟩, ⟨s4, ?_, hs4⟩, ?_⟩
  · rw [hsteps]
    simp
  · rw [hsteps]
    simp
  · rw [hsteps]
    simp
  · intro e he
    rw [hsuf] at he
    rcases List.mem_append.mp he with he | he
    · rw [List.mem_singleton.mp he]
      show ("inwx_domain_check" : String) ≠ "inwx_domain_register"
      decide
    · rcases hall e he with h | h <;> (rw [h]; decide)

/-- C5 witness: a run whose availability check reports `avail=false` skips
registration with the unavailability reason and still reaches the
nameserver and hosting stages. -/
theorem c5_unavailable_continues_witness :
    ∃ r tr, provisionDomainWithHosting
        [⟨"inwx_domain_check", fun _ => Except.ok (Json.arr [Json.obj
          [("domain", Json.str "taken.de"), ("avail", Json.bool false)]])⟩,
         demoRegisterTool, demoNsTool] demoIspTools
        { demoParams with domain := "taken.de" } = Except.ok (r, tr) ∧
      r.steps[1]? = some ⟨"domain_register", StepStatus.skipped,
        some (Json.obj [("reason", Json.str "domain not available")]), none⟩ ∧
      (∃ s3, r.steps[2]? = some s3 ∧ s3.step = "nameserver_set") ∧
      (∃ s4, r.steps[3]? = some s4 ∧ s4.step = "isp_provision") ∧
      ∀ e ∈ tr, e.tool ≠ "inwx_domain_register" :=
  c5_unavailable_continues demoIspTools rfl rfl rfl rfl (Or.inr ⟨Json.obj [], rfl⟩)

/-- C6: when the registrar registry contains no operation named
`inwx_domain_check` (and the domain is valid), the result is `ok=false`
with a single error step whose message names the missing operation, no
later stage appearing in the ledger and nothing having been invoked. -/
theorem c6_missing_check_tool {inwxTools : List ExternalBoundTool}
    {params : ProvisionDomainHostingParams}
    (ispTools : List ExternalBoundTool)
    (h1 : (jsTrim params.domain).data.isEmpty = false)
    (habs : ∀ t ∈ inwxTools, t.name ≠ "inwx_domain_check") :
    provisionDomainWithHosting inwxTools ispTools params =
      Except.ok ({ ok := false,
                   domain := jsTrim params.domain,
                   steps := [⟨"domain_check", StepStatus.error, none,
                     some "Required tool \"inwx_domain_check\" not found in provided toolset"⟩],
                   created := CreatedRecord.empty }, []) ∧
    containsSub "Required tool \"inwx_domain_check\" not found in provided toolset"
      "inwx_domain_check" = true := by
  constructor
  · rw [provision_of_check_error h1 (callTool_of_absent habs),
      invokeTool_of_findTool_error (findTool_of_absent habs)]
    rfl
  · decide

/-- C6 witness: an empty registrar registry aborts at the availability
check with the tool-not-found message. -/
theorem c6_missing_check_tool_witness :
    provisionDomainWithHosting [] demoIspTools demoParams =
      Except.ok ({ ok := false,
                   domain := jsTrim demoParams.domain,
                   steps := [⟨"domain_check", StepStatus.error, none,
                     some "Required tool \"inwx_domain_check\" not found in provided toolset"⟩],
                   created := CreatedRecord.empty }, []) ∧
    containsSub "Required tool \"inwx_domain_check\" not found in provided toolset"
      "inwx_domain_check" = true :=
  c6_missing_check_tool demoIspTools rfl (by simp)

/-- The empty pattern matches at any position. -/
theorem startsWithChars_nil (l : List Char) : startsWithChars l [] = true := by
  cases l <;> rfl

/-- A head-anchored match survives appending to the haystack. -/
theorem startsWithChars_extend {a pat : List Char} (b : List Char)
    (h : startsWithChars a pat = true) : startsWithChars (a ++ b) pat = true := by
  induction pat generalizing a with
  | nil => exact startsWithChars_nil _
  | cons d ds ih =>
      cases a with
      | nil => simp [startsWithChars] at h
      | cons c cs =>
          simp [startsWithChars] at h ⊢
          exact ⟨h.1, ih h.2⟩

/-- Every haystack contains the empty pattern. -/
theorem occursInChars_nil (l : List Char) : occursInChars l [] = true := by
  cases l <;> simp [occursInChars, startsWithChars]

/-- An occurrence survives appending to the right of the haystack. -/
theorem occursInChars_extend {a pat : List Char} (b : List Char)
    (h : occursInChars a pat = true) : occursInChars (a ++ b) pat = true := by
  induction a with
  | nil =>
      cases pat with
      | nil => exact occursInChars_nil b
      | cons d ds => simp [occursInChars, startsWithChars] at h
  | cons x xs ih =>
      simp [occursInChars] at h ⊢
      rcases h with h | h
      · exact Or.inl (startsWithChars_extend b h)
      · exact Or.inr (ih h)

/-- An occurrence survives prepending to the left of the haystack. -/
theorem occursInChars_shift {b pat : List Char} (a : List Char)
    (h : occursInChars b pat = true) : occursInChars (a ++ b) pat = true := by
  induction a with
  | nil => simpa using h
  | cons x xs ih =>
      simp [occursInChars]
      exact Or.inr (by simpa using ih)

theorem startsWithChars_self (l : List Char) : startsWithChars l l = true := by
  induction l with
  | nil => rfl
  | cons c cs ih => simp [startsWithChars, ih]

theorem containsSub_self (s : String) : containsSub s s = true := by
  unfold containsSub
  cases hs : s.data with
  | nil => rfl
  | cons c cs =>
      simp [occursInChars]
      exact Or.inl (by simpa using startsWithChars_self (c :: cs))

/-- String concatenation concatenates the underlying character lists. -/
theorem string_data_append (s t : String) : (s ++ t).data = s.data ++ t.data := by
  cases s
  cases t
  rfl

theorem containsSub_shift {t sub : String} (s : String)
    (h : containsSub t sub = true) : containsSub (s ++ t) sub = true := by
  unfold containsSub at h ⊢
  rw [string_data_append]
  exact occursInChars_shift _ h

theorem containsSub_extend {s sub : String} (t : String)
    (h : containsSub s sub = true) : containsSub (s ++ t) sub = true := by
  unfold containsSub at h ⊢
  rw [string_data_append]
  exact occursInChars_extend _ h

/-- The guard's policy-violation message names both the operation and the
violated rule, as the spec requires. -/
theorem guardViolationMessage_names (name rule : String) :
    containsSub (guardViolationMessage name rule) rule = true ∧
    containsSub (guardViolationMessage name rule) name = true := by
  constructor
  · exact containsSub_shift _ (containsSub_self rule)
  · exact containsSub_extend _ (containsSub_extend _ (containsSub_shift _ (containsSub_self name)))

/-- C7: the availability-check stage tolerates the operation result as a
single record or as a sequence of records — availability is read from the
first/only record's boolean `avail` field, and defaults to false when the
field is absent, the sequence is empty, or the result is not a record. -/
theorem c7_availability_shapes :
    (∀ fields b, (Json.obj fields).getField "avail" = some (Json.bool b) →
      readAvailability (Json.obj fields) = b) ∧
    (∀ fields b rest, (Json.obj fields).getField "avail" = some (Json.bool b) →
      readAvailability (Json.arr (Json.obj fields :: rest)) = b) ∧
    (∀ fields, (Json.obj fields).getField "avail" = none →
      readAvailability (Json.obj fields) = false) ∧
    (∀ fields rest, (Json.obj fields).getField "avail" = none →
      readAvailability (Json.arr (Json.obj fields :: rest)) = false) ∧
    readAvailability (Json.arr []) = false ∧
    readAvailability Json.null = false ∧
    (∀ s, readAvailability (Json.str s) = false) ∧
    (∀ n, readAvailability (Json.num n) = false) ∧
    (∀ b, readAvailability (Json.bool b) = false) := by
  refine ⟨fun fields b hf => ?_, fun fields b rest hf => ?_, fun fields hf => ?_,
    fun fields rest hf => ?_, rfl, rfl, fun s => rfl, fun n => rfl, fun b => rfl⟩
  all_goals simp [readAvailability, hf, Json.truthy]

/-- C7 witness: both accepted shapes at a concrete record, and the
absent-field default. -/
theorem c7_availability_shapes_witness :
    readAvailability (Json.arr [Json.obj [("avail", Json.bool true)]]) = true ∧
    readAvailability (Json.obj [("avail", Json.bool true)]) = true ∧
    readAvailability (Json.obj [("domain", Json.str "x.de")]) = false :=
  ⟨c7_availability_shapes.2.1 [("avail", Json.bool true)] true [] rfl,
   c7_availability_shapes.1 [("avail", Json.bool true)] true rfl,
   c7_availability_shapes.2.2.1 [("domain", Json.str "x.de")] rfl⟩

/-- C8: the engine's branching is deterministic — two runs over the same
parameters in which each named operation gives the same response (or the
same error) produce ledgers with the same step names and statuses and the
same overall flag. -/
theorem c8_deterministic (inwx1 isp1 inwx2 isp2 : List ExternalBoundTool)
    (params : ProvisionDomainHostingParams)
    (hcheck : ∀ p, callTool inwx1 "inwx_domain_check" p = callTool inwx2 "inwx_domain_check" p)
    (hreg : ∀ p, callTool inwx1 "inwx_domain_register" p = callTool inwx2 "inwx_domain_register" p)
    (hns : ∀ p, callTool inwx1 "inwx_nameserver_set" p = callTool inwx2 "inwx_nameserver_set" p)
    (hisp : ∀ p, callTool isp1 "isp_provision_site" p = callTool isp2 "isp_provision_site" p) :
    ledgerShape (provisionDomainWithHosting inwx1 isp1 params) =
      ledgerShape (provisionDomainWithHosting inwx2 isp2 params) := by
  rw [ledgerShape_eq_map, ledgerShape_eq_map]
  have hres : resultOf (provisionDomainWithHosting inwx1 isp1 params) =
      resultOf (provisionDomainWithHosting inwx2 isp2 params) := by
    by_cases h1 : (jsTrim params.domain).data.isEmpty = true
    · rw [provision_of_invalid h1, provision_of_invalid h1]
    · have h1' : (jsTrim params.domain).data.isEmpty = false := by
        revert h1
        cases (jsTrim params.domain).data.isEmpty <;> simp
      cases hc : callTool inwx1 "inwx_domain_check" (checkParams (jsTrim params.domain)) with
      | ok raw =>
          rw [provision_of_check_ok h1' hc, provision_of_check_ok h1' ((hcheck _) ▸ hc)]
          exact registerStage_det (hreg _) (hns _) (hisp _) _ _ _ _
      | error m =>
          rw [provision_of_check_error h1' hc, provision_of_check_error h1' ((hcheck _) ▸ hc)]
          rfl
  rw [hres]

/-- C8 witness: a registry and a reordered but behaviourally identical
registry yield the same ledger shape. -/
theorem c8_deterministic_witness :
    ledgerShape (provisionDomainWithHosting demoInwxTools demoIspTools demoParams) =
      ledgerShape (provisionDomainWithHosting
        [demoRegisterTool, demoNsTool, demoCheckTool] demoIspTools demoParams) :=
  c8_deterministic demoInwxTools demoIspTools
    [demoRegisterTool, demoNsTool, demoCheckTool] demoIspTools demoParams
    (fun _ => rfl) (fun _ => rfl) (fun _ => rfl) (fun _ => rfl)

/-- C9: guard enforcement, modelled from the spec.  A write under a
read-only policy is rejected before invocation with an error naming the
operation and the rule "readOnly"; an operation absent from a non-empty
allow-list is rejected before invocation with an error naming the rule
"allowedOperations", regardless of classification; otherwise the call is
forwarded unchanged — the Boolean component witnesses that rejected calls
never invoke the underlying operation. -/
theorem c9_guard_policy (policy : PermissionPolicy) (name : String)
    (cls : OpClassification) (op : Json → Except String Json) (p : Json) :
    (policy.readOnly = true → cls = OpClassification.write →
      guardedRun policy name cls op p =
        (Except.error (guardViolationMessage name "readOnly"), false) ∧
      containsSub (guardViolationMessage name "readOnly") "readOnly" = true ∧
      containsSub (guardViolationMessage name "readOnly") name = true) ∧
    (¬(policy.readOnly = true ∧ cls = OpClassification.write) →
      policy.allowedOperations ≠ [] → name ∉ policy.allowedOperations →
      guardedRun policy name cls op p =
        (Except.error (guardViolationMessage name "allowedOperations"), false) ∧
      containsSub (guardViolationMessage name "allowedOperations") "allowedOperations" = true ∧
      containsSub (guardViolationMessage name "allowedOperations") name = true) ∧
    (¬(policy.readOnly = true ∧ cls = OpClassification.write) →
      (policy.allowedOperations = [] ∨ name ∈ policy.allowedOperations) →
      guardedRun policy name cls op p = (op p, true)) := by
  have hmsg1 := guardViolationMessage_names name "readOnly"
  have hmsg2 := guardViolationMessage_names name "allowedOperations"
  refine ⟨fun hro hw => ⟨?_, hmsg1.1, hmsg1.2⟩,
    fun hnot hne hnm => ⟨?_, hmsg2.1, hmsg2.2⟩, fun hnot hallow => ?_⟩
  · unfold guardedRun
    rw [if_pos ⟨hro, hw⟩]
  · unfold guardedRun
    rw [if_neg hnot, if_pos ⟨hne, hnm⟩]
  · have hno2 : ¬(policy.allowedOperations ≠ [] ∧ name ∉ policy.allowedOperations) := by
      rcases hallow with h | h
      · exact fun hcon => hcon.1 h
      · exact fun hcon => hcon.2 h
    unfold guardedRun
    rw [if_neg hnot, if_neg hno2]

/-- C9 witness: a blocked write under `readOnly`, a blocked unlisted read
under an allow-list, and a forwarded allow-listed call. -/
theorem c9_guard_policy_witness :
    guardedRun ⟨true, []⟩ "inwx_domain_register" OpClassification.write
        (fun _ => Except.ok Json.null) Json.null =
      (Except.error (guardViolationMessage "inwx_domain_register" "readOnly"), false) ∧
    guardedRun ⟨false, ["inwx_account_info"]⟩ "inwx_domain_check" OpClassification.read
        (fun _ => Except.ok Json.null) Json.null =
      (Except.error (guardViolationMessage "inwx_domain_check" "allowedOperations"), false) ∧
    guardedRun ⟨false, ["inwx_account_info"]⟩ "inwx_account_info" OpClassification.read
        (fun _ => Except.ok (Json.obj [])) Json.null =
      (Except.ok (Json.obj []), true) :=
  ⟨((c9_guard_policy ⟨true, []⟩ "inwx_domain_register" OpClassification.write
      (fun _ => Except.ok Json.null) Json.null).1 rfl rfl).1,
   ((c9_guard_policy ⟨false, ["inwx_account_info"]⟩ "inwx_domain_check" OpClassification.read
      (fun _ => Except.ok Json.null) Json.null).2.1 (by simp) (by simp) (by decide)).1,
   (c9_guard_policy ⟨false, ["inwx_account_info"]⟩ "inwx_account_info" OpClassification.read
      (fun _ => Except.ok (Json.obj [])) Json.null).2.2 (by simp) (Or.inr (by simp))⟩

/-- C10: in every returned workflow result, errors can occur only as the
final ledger entry (hence at most one error step exists), and `ok` holds
exactly when no step errored. -/
theorem c10_ledger_invariant {inwxTools ispTools : List ExternalBoundTool}
    {params : ProvisionDomainHostingParams} {r : ProvisioningResult}
    {tr : List CallEvent}
    (h : provisionDomainWithHosting inwxTools ispTools params = Except.ok (r, tr)) :
    (∀ s ∈ r.steps.dropLast, s.status ≠ StepStatus.error) ∧
    (r.steps.filter (fun s => s.status == StepStatus.error)).length ≤ 1 ∧
    (r.ok = true ↔ ∀ s ∈ r.steps, s.status ≠ StepStatus.error) := by
  have hmain : (∀ s ∈ r.steps.dropLast, s.status ≠ StepStatus.error) ∧
      (r.ok = true ↔ ledgerNoError r.steps) := by
    by_cases h1 : (jsTrim params.domain).data.isEmpty = true
    · rw [provision_of_invalid h1] at h
      simp only [Except.ok.injEq, Prod.mk.injEq] at h
      obtain ⟨hr, -⟩ := h
      subst hr
      constructor
      · intro s hs
        simp at hs
      · refine iff_of_false (by simp) (fun hno => ?_)
        exact hno ⟨"validate", StepStatus.error, none, some "domain is required"⟩ (by simp) rfl
    · have h1' : (jsTrim params.domain).data.isEmpty = false := by
        revert h1
        cases (jsTrim params.domain).data.isEmpty <;> simp
      cases hc : callTool inwxTools "inwx_domain_check" (checkParams (jsTrim params.domain)) with
      | ok raw =>
          rw [provision_of_check_ok h1' hc] at h
          refine registerStage_inv ?_ h
          intro s hs
          rw [List.mem_singleton.mp hs]
          simp
      | error m =>
          rw [provision_of_check_error h1' hc] at h
          simp only [Except.ok.injEq, Prod.mk.injEq] at h
          obtain ⟨hr, -⟩ := h
          subst hr
          constructor
          · intro s hs
            simp at hs
          · refine iff_of_false (by simp) (fun hno => ?_)
            exact hno ⟨"domain_check", StepStatus.error, none, some m⟩ (by simp) rfl
  exact ⟨hmain.1, filter_error_le_one hmain.1, hmain.2⟩

/-- C10 witness: the invariant instantiated on the all-successful demo
run. -/
theorem c10_ledger_invariant_witness :
    ∃ r tr, provisionDomainWithHosting demoInwxTools demoIspTools demoParams =
        Except.ok (r, tr) ∧
      ((∀ s ∈ r.steps.dropLast, s.status ≠ StepStatus.error) ∧
       (r.steps.filter (fun s => s.status == StepStatus.error)).length ≤ 1 ∧
       (r.ok = true ↔ ∀ s ∈ r.steps, s.status ≠ StepStatus.error)) :=
  ⟨_, _, rfl, @c10_ledger_invariant demoInwxTools demoIspTools demoParams _ _ rfl⟩
